import Mathlib

set_option maxRecDepth 40000

/-!
Verification of the FSRPWL mock generative-AI demo (src/Home/main.py).

The source defines mock SDK classes (MockTool, MockConfig, MockClient) and two
services built on MockClient.generate_content: generate_chat_response and
generate_rp_scenario.  All behavior is hardcoded: generate_content branches on
the Python condition `config.tools and config.tools[0].name == "google_search"`
and returns one of two fixed payload dictionaries.

Embedding notes:
* Python dictionaries with fixed keys become structures (ResponsePayload, Source).
* `config.tools` is `Optional[List[MockTool]]`, embedded as `Option (List MockTool)`.
* The Python branch condition evaluates with short-circuit `and`: the truthiness
  of `config.tools` (None and [] are falsy) guards a subscript `config.tools[0]`
  that could raise TypeError (subscripting None) or IndexError (empty list).
  We embed the subscript as an `Except String` computation (`subscript0`) and
  the whole condition as `condValue`, so totality (the absence of those errors)
  is a theorem rather than an artifact of the embedding.
* The only side effect in the source is printing; each function threads an
  explicit stdout `out : List String` and appends its trace lines, so claims
  about hidden state and about arguments affecting only diagnostics are
  statable.  The module-level client `gemini_client = MockClient(api_key=...)`
  reads an environment variable, so the client is passed as an explicit
  parameter; generate_content never reads it.
-/

/-- Embeds class MockTool: a mock tool marker holding only a name. -/
structure MockTool where
  name : String
deriving DecidableEq

/-- Embeds class MockConfig: system instruction plus optional tools list
(Python default `tools=None`). -/
structure MockConfig where
  system_instruction : String
  tools : Option (List MockTool) := none
deriving DecidableEq

/-- Embeds the client object; the mock stores nothing but the api_key argument
passed to `MockClient(api_key=...)`, and `generate_content` never reads it. -/
structure MockClient where
  api_key : Option String
deriving DecidableEq

/-- One entry of the "sources" list: a dictionary with keys "title" and "uri". -/
structure Source where
  title : String
  uri : String
deriving DecidableEq

/-- The dictionary returned by generate_content: keys "text" and "sources". -/
structure ResponsePayload where
  text : String
  sources : List Source
deriving DecidableEq

/-- Python truthiness of the optional tools list: `None` and `[]` are falsy,
a non-empty list is truthy. -/
def pyTruthy : Option (List MockTool) → Bool
  | none => false
  | some ts => !ts.isEmpty

/-- The Python subscript `config.tools[0]`: raises TypeError on None,
IndexError on an empty list. -/
def subscript0 : Option (List MockTool) → Except String MockTool
  | none => Except.error "TypeError: NoneType object is not subscriptable"
  | some [] => Except.error "IndexError: list index out of range"
  | some (t :: _) => Except.ok t

/-- The branch condition `config.tools and config.tools[0].name == "google_search"`
of main.py line 48, with Python short-circuit evaluation: the subscript is
evaluated only when `config.tools` is truthy. -/
def condValue (tools : Option (List MockTool)) : Except String Bool :=
  if pyTruthy tools then
    Except.map (fun t => t.name == "google_search") (subscript0 tools)
  else
    Except.ok false

/-- The hardcoded grounded-chat text of main.py lines 51-63 (Python adjacent
string literals concatenated). -/
def groundedText : String :=
  "FSRPWL (Florida State Roleplay Whitelisted) is a highly structured roleplay community focused on the **Emergency Response: Liberty County** game on Roblox. We emphasize maturity, realism, and adherence to realistic procedures. Here is a table of our core departments:\n\n| Department | Primary Focus |\n|---|---|\n| FHP | Interstate enforcement & traffic |\n| Sheriff\x27s Office | Patrol, investigations, community policing |\n| Fire & Rescue | Medical, fire suppression, technical rescue |\n| Communications | Call taking & unit coordination |\n\nIf you\x27d like to dive deeper into any department, just ask!"

/-- The hardcoded sources list of main.py lines 64-67. -/
def groundedSources : List Source :=
  [Source.mk "FSRPWL Community Guidelines" "https://example.com/fsrpwl-rules",
   Source.mk "Roblox ER:LC Wiki" "https://example.com/erlc-wiki"]

/-- The hardcoded creative-scenario text of main.py lines 72-75. -/
def creativeText : String :=
  "**Scenario: Armed Robbery in Progress.** You are a Sheriff\x27s Office deputy responding to a 211 (Armed Robbery) at the County Bank branch. Dispatch reports two suspects inside with handguns. Multiple 911 calls confirm that hostages have been taken. Your primary directive is to establish a secure perimeter, contain the suspects, and coordinate with specialized units (SWAT) as they arrive on scene. **Do not engage alone.** Your decisions on prioritizing life safety vs. containment are crucial."

/-- The grounded-chat payload dictionary (main.py lines 50-68). -/
def groundedPayload : ResponsePayload :=
  ResponsePayload.mk groundedText groundedSources

/-- The creative-scenario payload dictionary (main.py lines 71-78): empty sources. -/
def creativePayload : ResponsePayload :=
  ResponsePayload.mk creativeText []

/-- Embeds MockClient.generate_content (main.py lines 32-78).  The three print
statements become trace lines appended to the stdout stream `out`
(`config.system_instruction[:50]` is the 50-character Python slice).  The
result is the value of the branch on `condValue config.tools`, paired with the
extended stdout. -/
def MockClient.generate_content (client : MockClient) (model : String)
    (contents : String) (config : MockConfig) (out : List String) :
    Except String ResponsePayload × List String :=
  let _ := client
  let out := out ++
    ["\n[MOCK API CALL] Model: " ++ model,
     "[MOCK API CALL] Query: \x27" ++ contents ++ "\x27",
     "[MOCK API CALL] System Instruction: \x27" ++ config.system_instruction.take 50 ++ "...\x27"]
  match condValue config.tools with
  | Except.error e => (Except.error e, out)
  | Except.ok true => (Except.ok groundedPayload, out)
  | Except.ok false => (Except.ok creativePayload, out)

/-- Embeds generate_chat_response (main.py lines 87-114): fixed system prompt,
a single google_search tool flag, fixed model, then the payload rebuilt from
the keys "text" and `get("sources", [])` (always present here). -/
def generate_chat_response (client : MockClient) (user_query : String)
    (out : List String) : Except String ResponsePayload × List String :=
  let system_prompt :=
    "You are Flordiee AI, a helpful and professional assistant for the FSRPWL community. You are friendly and knowledgeable. You MUST use factual, search-grounded information when possible."
  let config := MockConfig.mk system_prompt (some [MockTool.mk "google_search"])
  let r := MockClient.generate_content client "gemini-2.5-flash" user_query config out
  (Except.map (fun p => ResponsePayload.mk p.text p.sources) r.fst, r.snd)

/-- Embeds generate_rp_scenario (main.py lines 117-137): the department is
interpolated into a fixed prompt, the config carries no tools, and only the
"text" field of the payload is returned. -/
def generate_rp_scenario (client : MockClient) (department : String)
    (out : List String) : Except String String × List String :=
  let system_prompt :=
    "You are a creative director for a realistic, mature, whitelist-only roleplay community. Your job is to generate engaging, serious, and realistic scenario prompts for players, suitable for a mature audience."
  let query :=
    "Generate a short, realistic roleplay scenario (around 100 words) for the \x27" ++ department ++ "\x27 department."
  let config := MockConfig.mk system_prompt none
  let r := MockClient.generate_content client "gemini-2.5-flash" query config out
  (Except.map (fun p => p.text) r.fst, r.snd)

/-- The boolean the branch condition evaluates to when it does not raise:
true exactly when the tools list is non-empty and its FIRST element is named
google_search. -/
def takesGroundedBranch (tools : Option (List MockTool)) : Bool :=
  match tools with
  | some (t :: _) => t.name == "google_search"
  | _ => false

/-- `s` contains `sub` as a substring. -/
def containsSub (s sub : String) : Prop :=
  ∃ a b : String, s = a ++ (sub ++ b)

/-! ## Helper lemmas -/

/-- The short-circuit condition never raises: it evaluates to
`takesGroundedBranch tools`. -/
theorem condValue_eq (tools : Option (List MockTool)) :
    condValue tools = Except.ok (takesGroundedBranch tools) := by
  rcases tools with _ | ⟨_ | ⟨t, ts⟩⟩ <;> rfl

/-- Payload part of generate_content: grounded iff the first tool is named
google_search, creative otherwise; never an error. -/
theorem generate_content_fst (client : MockClient) (model contents : String)
    (config : MockConfig) (out : List String) :
    (MockClient.generate_content client model contents config out).fst =
      Except.ok (if takesGroundedBranch config.tools then groundedPayload
        else creativePayload) := by
  unfold MockClient.generate_content
  rw [condValue_eq]
  cases h : takesGroundedBranch config.tools <;> simp [h]

/-- The two hardcoded payloads differ. -/
theorem grounded_ne_creative : groundedPayload ≠ creativePayload := by
  decide

/-- The chat service always receives the grounded payload. -/
theorem generate_chat_response_fst (client : MockClient) (user_query : String)
    (out : List String) :
    (generate_chat_response client user_query out).fst =
      Except.ok groundedPayload := by
  simp only [generate_chat_response, generate_content_fst]
  rfl

/-- The scenario service always receives the creative text. -/
theorem generate_rp_scenario_fst (client : MockClient) (department : String)
    (out : List String) :
    ( generate_rp_scenario client department out).fst =
      Except.ok creativeText := by
  simp only [generate_rp_scenario, generate_content_fst]
  rfl

/-- Grounded result characterization: generate_content yields the grounded
payload exactly when the tools list starts with a tool named google_search. -/
theorem fst_grounded_iff (client : MockClient) (model contents : String)
    (config : MockConfig) (out : List String) :
    (MockClient.generate_content client model contents config out).fst =
      Except.ok groundedPayload ↔
      ∃ t ts, config.tools = some (t :: ts) ∧ t.name = "google_search" := by
  rw [generate_content_fst]
  constructor
  · intro h
    rcases hc : config.tools with _ | ⟨_ | ⟨t, ts⟩⟩
    · rw [hc] at h
      simp [takesGroundedBranch] at h
      exact absurd h.symm grounded_ne_creative
    · rw [hc] at h
      simp [takesGroundedBranch] at h
      exact absurd h.symm grounded_ne_creative
    · refine ⟨t, ts, rfl, ?_⟩
      rw [hc] at h
      by_cases hb : t.name = "google_search"
      · exact hb
      · simp [takesGroundedBranch, hb] at h
        exact absurd h.symm grounded_ne_creative
  · rintro ⟨t, ts, hc, hn⟩
    rw [hc]
    simp [takesGroundedBranch, hn]

/-- Creative result characterization: generate_content yields the creative
payload exactly when the tools list does not start with a google_search tool. -/
theorem fst_creative_iff (client : MockClient) (model contents : String)
    (config : MockConfig) (out : List String) :
    (MockClient.generate_content client model contents config out).fst =
      Except.ok creativePayload ↔
      ¬ ∃ t ts, config.tools = some (t :: ts) ∧ t.name = "google_search" := by
  rw [generate_content_fst]
  rcases hc : config.tools with _ | ⟨_ | ⟨t, ts⟩⟩ <;>
    simp [takesGroundedBranch]
  by_cases hb : t.name = "google_search"
  · simp [hb]
    exact fun h => absurd h grounded_ne_creative
  · simp [hb]

/-- The grounded text contains "FHP". -/
theorem groundedText_contains_FHP : containsSub groundedText "FHP" :=
  ⟨"FSRPWL (Florida State Roleplay Whitelisted) is a highly structured roleplay community focused on the **Emergency Response: Liberty County** game on Roblox. We emphasize maturity, realism, and adherence to realistic procedures. Here is a table of our core departments:\n\n| Department | Primary Focus |\n|---|---|\n| ",
   " | Interstate enforcement & traffic |\n| Sheriff\x27s Office | Patrol, investigations, community policing |\n| Fire & Rescue | Medical, fire suppression, technical rescue |\n| Communications | Call taking & unit coordination |\n\nIf you\x27d like to dive deeper into any department, just ask!",
   by rfl⟩

/-- The creative text contains "Armed Robbery". -/
theorem creativeText_contains_robbery : containsSub creativeText "Armed Robbery" :=
  ⟨"**Scenario: ",
   " in Progress.** You are a Sheriff\x27s Office deputy responding to a 211 (Armed Robbery) at the County Bank branch. Dispatch reports two suspects inside with handguns. Multiple 911 calls confirm that hostages have been taken. Your primary directive is to establish a secure perimeter, contain the suspects, and coordinate with specialized units (SWAT) as they arrive on scene. **Do not engage alone.** Your decisions on prioritizing life safety vs. containment are crucial.",
   by rfl⟩

/-! ## Claim theorems -/

/-- C1 counterexample: a config whose tools list contains a tool named
google_search in second position (so "at some position") nevertheless receives
the creative payload, whose sources list is empty, not the grounded payload
the claim promises. -/
theorem C1_counterexample :
    (([MockTool.mk "other_tool", MockTool.mk "google_search"].any
        (fun t => t.name == "google_search")) = true) ∧
    (MockClient.generate_content (MockClient.mk none) "gemini-2.5-flash" "hello"
        (MockConfig.mk "sys"
          (some [MockTool.mk "other_tool", MockTool.mk "google_search"])) []).fst =
      Except.ok creativePayload ∧
    creativePayload ≠ groundedPayload ∧
    creativePayload.sources = [] := by
  refine ⟨rfl, rfl, ?_, rfl⟩
  intro h
  exact grounded_ne_creative h.symm

/-- C1 (amended): the grounded payload is returned iff the FIRST tool of the
tools list is named google_search (not "at any position"); otherwise the
creative payload is returned.  The grounded text contains "FHP" and carries the
two fixed sources; the creative text contains "Armed Robbery" and carries no
sources. -/
theorem C1_amended (client : MockClient) (model contents : String)
    (config : MockConfig) (out : List String) :
    ((MockClient.generate_content client model contents config out).fst =
        Except.ok groundedPayload ↔
      ∃ t ts, config.tools = some (t :: ts) ∧ t.name = "google_search") ∧
    ((MockClient.generate_content client model contents config out).fst =
        Except.ok creativePayload ↔
      ¬ ∃ t ts, config.tools = some (t :: ts) ∧ t.name = "google_search") ∧
    containsSub groundedPayload.text "FHP" ∧
    groundedPayload.sources = groundedSources ∧
    containsSub creativePayload.text "Armed Robbery" ∧
    creativePayload.sources = [] :=
  ⟨fst_grounded_iff client model contents config out,
   fst_creative_iff client model contents config out,
   groundedText_contains_FHP, rfl, creativeText_contains_robbery, rfl⟩

/-- C2: on the query "What are the core departments in FSRPWL?" the chat
service returns exactly the two fixed sources, in order. -/
theorem C2_chat_sources_exact (client : MockClient) (out : List String) :
    Except.map ResponsePayload.sources
        (generate_chat_response client
          "What are the core departments in FSRPWL?" out).fst =
      Except.ok
        [Source.mk "FSRPWL Community Guidelines" "https://example.com/fsrpwl-rules",
         Source.mk "Roblox ER:LC Wiki" "https://example.com/erlc-wiki"] := by
  rfl

/-- C3: for every query string, the chat service succeeds with a payload whose
sources list has exactly 2 entries, each with non-empty title and uri. -/
theorem C3_chat_sources_shape (client : MockClient) (query : String)
    (out : List String) :
    ∃ p, (generate_chat_response client query out).fst = Except.ok p ∧
      p.sources.length = 2 ∧
      ∀ s ∈ p.sources, s.title ≠ "" ∧ s.uri ≠ "" := by
  refine ⟨groundedPayload, generate_chat_response_fst client query out, rfl, ?_⟩
  decide

/-- C4: the grounded branch is decided only by the first element of the tools
list: the grounded payload is returned iff tools is non-empty with first tool
named google_search, and a config whose first tool has another name receives
the creative payload even when a later tool is named google_search. -/
theorem C4_first_tool_decides (client : MockClient) (model contents : String)
    (config : MockConfig) (out : List String) :
    ((MockClient.generate_content client model contents config out).fst =
        Except.ok groundedPayload ↔
      ∃ t ts, config.tools = some (t :: ts) ∧ t.name = "google_search") ∧
    (∀ t ts, config.tools = some (t :: ts) → t.name ≠ "google_search" →
      (MockClient.generate_content client model contents config out).fst =
        Except.ok creativePayload) := by
  refine ⟨fst_grounded_iff client model contents config out, ?_⟩
  intro t ts hc hn
  rw [generate_content_fst, hc]
  simp [takesGroundedBranch, hn]

/-- C5: for department "Sheriff's Office" the scenario service returns a text
starting with "**Scenario: Armed Robbery in Progress.**". -/
theorem C5_scenario_sheriff_starts (client : MockClient) (out : List String) :
    ∃ rest, ( generate_rp_scenario client "Sheriff\x27s Office" out).fst =
      Except.ok ("**Scenario: Armed Robbery in Progress.**" ++ rest) :=
  ⟨" You are a Sheriff\x27s Office deputy responding to a 211 (Armed Robbery) at the County Bank branch. Dispatch reports two suspects inside with handguns. Multiple 911 calls confirm that hostages have been taken. Your primary directive is to establish a secure perimeter, contain the suspects, and coordinate with specialized units (SWAT) as they arrive on scene. **Do not engage alone.** Your decisions on prioritizing life safety vs. containment are crucial.",
   by rfl⟩

/-- C6: for every department string, the scenario service succeeds with a
non-empty text (its return type carries no sources at all). -/
theorem C6_scenario_nonempty (client : MockClient) (department : String)
    (out : List String) :
    ∃ t, ( generate_rp_scenario client department out).fst = Except.ok t ∧
      t ≠ "" := by
  refine ⟨creativeText, generate_rp_scenario_fst client department out, ?_⟩
  decide

/-- C7: every generate_content call succeeds with a payload whose text is
non-empty, and whose sources list is non-empty only if the config's tools list
contains a tool named google_search. -/
theorem C7_payload_invariants (client : MockClient) (model contents : String)
    (config : MockConfig) (out : List String) :
    ∃ p, (MockClient.generate_content client model contents config out).fst =
        Except.ok p ∧
      p.text ≠ "" ∧
      (p.sources ≠ [] →
        ∃ ts, config.tools = some ts ∧ ∃ t ∈ ts, t.name = "google_search") := by
  refine ⟨if takesGroundedBranch config.tools then groundedPayload
            else creativePayload,
    generate_content_fst client model contents config out, ?_, ?_⟩
  · cases h : takesGroundedBranch config.tools <;> simp [h] <;> decide
  · cases h : takesGroundedBranch config.tools
    · rw [if_neg (by simp [h])]
      intro hs
      exact absurd rfl hs
    · rw [if_pos (by simp [h])]
      intro _
      rcases hc : config.tools with _ | ⟨_ | ⟨t, ts⟩⟩ <;>
        rw [hc] at h <;> simp [takesGroundedBranch] at h
      exact ⟨t :: ts, rfl, t, List.mem_cons_self t ts, h⟩

/-- C8: both services are deterministic and mutate no hidden state: a second
identical call, made from the stdout state the first call produced, returns
the same result as the first call. -/
theorem C8_services_deterministic (client : MockClient)
    (query department : String) (out : List String) :
    (generate_chat_response client query
        (generate_chat_response client query out).snd).fst =
      (generate_chat_response client query out).fst ∧
    ( generate_rp_scenario client department
        ( generate_rp_scenario client department out).snd).fst =
      ( generate_rp_scenario client department out).fst := by
  constructor
  · rw [generate_chat_response_fst, generate_chat_response_fst]
  · rw [generate_rp_scenario_fst, generate_rp_scenario_fst]

/-- C9: generate_content is total: for every client, model, prompt, config
(tools absent, empty, or anything else) and stdout state, it returns an ok
payload — the subscript in the branch condition never raises. -/
theorem C9_respond_total (client : MockClient) (model contents : String)
    (config : MockConfig) (out : List String) :
    ∃ p, (MockClient.generate_content client model contents config out).fst =
      Except.ok p :=
  ⟨if takesGroundedBranch config.tools then groundedPayload else creativePayload,
   generate_content_fst client model contents config out⟩

/-- C10: the payload returned by generate_content does not depend on the
client, the model, the prompt, or the stdout state: two calls whose configs
take the same branch of the tool-flag check return equal payloads. -/
theorem C10_payload_ignores_model_prompt (c1 c2 : MockClient)
    (m1 p1 m2 p2 : String) (cfg1 cfg2 : MockConfig) (out1 out2 : List String)
    (h : takesGroundedBranch cfg1.tools = takesGroundedBranch cfg2.tools) :
    (MockClient.generate_content c1 m1 p1 cfg1 out1).fst =
      (MockClient.generate_content c2 m2 p2 cfg2 out2).fst := by
  rw [generate_content_fst, generate_content_fst, h]

/-- Witness for C10: two calls with different models, prompts and stdout
states but configs on the same (creative) branch return equal payloads. -/
theorem C10_witness :
    takesGroundedBranch (MockConfig.mk "a" none).tools =
      takesGroundedBranch (MockConfig.mk "b" (some [])).tools ∧
    (MockClient.generate_content (MockClient.mk none) "gemini-2.5-flash" "p1"
        (MockConfig.mk "a" none) []).fst =
      (MockClient.generate_content (MockClient.mk (some "k")) "other-model" "p2"
        (MockConfig.mk "b" (some [])) ["old line"]).fst :=
  ⟨rfl, C10_payload_ignores_model_prompt (MockClient.mk none)
    (MockClient.mk (some "k")) "gemini-2.5-flash" "p1" "other-model" "p2"
    (MockConfig.mk "a" none) (MockConfig.mk "b" (some [])) [] ["old line"] rfl⟩
